import Mathlib

/-!
# Verification of the pumpbot batch-execution scripts

Shallow embedding of the repository's five scripts (buyBot.js, sellBot.js,
createToken.js, the fund-wallets script and the consolidate script) and
proofs about the batch executor, the per-wallet operations, the random
delay, the shuffle used for sell ordering, the token-creation flow and the
private-key backup store.

Conventions of the embedding:
* JS numbers are modelled as `ℚ` (the arithmetic the claims concern —
  `balance * LAMPORTS_PER_SOL - fee`, `balance * percent / 100`,
  `Math.floor`, running totals — is exact rational arithmetic here).
* External collaborators (RPC node, trade-quote HTTP API, IPFS upload,
  the Jito relay) are opaque: each call's outcome is a parameter of type
  `Except String _` — `.error` is a rejected promise / thrown error,
  `.ok` a resolved value.  HTTP statuses are carried explicitly because
  the scripts branch on `response.status === 200`.
* `try { ... } catch` blocks are translated by matching on those
  `Except` outcomes exactly where the source awaits them.
* Console output is modelled as a `List LogEvent`, one event per
  `console.log` / `console.error` that the claims are about.
* Inter-operation `sleep` delays are timing behaviour and are not part of
  the state; `getRandomDelay` itself is modelled exactly.
-/

deriving instance DecidableEq for Except

namespace PumpBot

/-- The constant `LAMPORTS_PER_SOL` from @solana/web3.js: 10^9 lamports per SOL. -/
def LAMPORTS_PER_SOL : ℚ := 1000000000

/-- buyBot.js lines 92-94 and sellBot.js lines 105-107:
`Math.floor(Math.random() * (max - min + 1) + min)`, with `rand` the value
returned by `Math.random()` (a real in `[0, 1)`, modelled in `ℚ`). -/
def getRandomDelay (min max : ℤ) (rand : ℚ) : ℤ :=
  ⌊rand * ((max : ℚ) - (min : ℚ) + 1) + (min : ℚ)⌋

/-- One console message of a per-wallet operation.  Constructors carry the
wallet identity / error message the corresponding `console.log` or
`console.error` call prints. -/
inductive LogEvent where
  | skipNoPrivateKey (walletNumber : Nat)
  | skipNoBalance (walletNumber : Nat)
  | errorFetchingBalance (message : String)
  | processingWallet (walletNumber : Nat) (address : String) (balanceSol : ℚ)
  | transferSuccess (amountSol : ℚ) (signature : String)
  | errorConsolidating (walletNumber : Nat) (message : String)
  | executingBuy (walletName : String) (amountSol : ℚ)
  | executingSell (walletName : String)
  | noTokenBalance (walletName : String)
  | currentBalance (balance : ℚ)
  | insufficientBalance (walletName : String)
  | tradeSuccess (walletName : String) (signature : String)
  | errorWithWallet (walletName : String) (message : String)
  | fundingWallet (walletName : String)
  | fundTransferSuccess (amountSol : ℚ) (signature : String)
  | errorFundingWallet (walletName : String) (message : String)
  deriving DecidableEq

/-- Whether a console message surfaces a per-wallet failure (a skip warning
or an error report), as opposed to a progress or success message. -/
def surfacesFailure : LogEvent → Bool
  | .skipNoPrivateKey _ => true
  | .skipNoBalance _ => true
  | .errorFetchingBalance _ => true
  | .errorConsolidating _ _ => true
  | .noTokenBalance _ => true
  | .insufficientBalance _ => true
  | .errorWithWallet _ _ => true
  | .errorFundingWallet _ _ => true
  | _ => false

/-- Whether a console message is the consolidate operation's
`Transfer successful!` report. -/
def isSuccessLog : LogEvent → Bool
  | .transferSuccess _ _ => true
  | _ => false

/-- Evaluation of `Keypair.fromSecretKey(bs58.decode(key)).publicKey`: the
public key is deterministically derived from the secret key; modelled as an
injective tagging of the secret. -/
def derivePublicKey (secretKey : String) : String :=
  "pubkey:" ++ secretKey

/-! ## Consolidate script (src/unnamed/part_000) -/

/-- consolidate lines 25-33: `getWalletBalance` awaits
`web3Connection.getBalance` (lamports) and returns `balance / LAMPORTS_PER_SOL`;
a thrown error is caught, logged, and `0` is returned. -/
def getWalletBalance (balanceQuery : Except String ℚ) : ℚ × List LogEvent :=
  match balanceQuery with
  | .ok lamports => (lamports / LAMPORTS_PER_SOL, [])
  | .error e => (0, [.errorFetchingBalance e])

/-- A `SystemProgram.transfer` instruction added to a transaction. -/
structure TransferAttempt where
  fromPubkey : String
  toPubkey : String
  lamports : ℚ
  deriving DecidableEq

/-- The external-world outcomes one `consolidateWallet` call can observe:
the `WALLET_<i+1>_PRIVATE_KEY` env variable, the `getBalance` query (in
lamports), the `getLatestBlockhash` query, the `getFeeForMessage` estimate
(in lamports) and the `sendTransaction` submission. -/
structure ConsolidateWalletEnv where
  privateKey : Option String
  balanceQuery : Except String ℚ
  blockhashQuery : Except String String
  feeQuery : Except String ℚ
  sendOutcome : Except String String
  deriving DecidableEq

/-- What one `consolidateWallet` call did: its return value (the amount in
SOL it reports as consolidated, `0` on every skip or failure), the transfer
instructions it constructed, and its console output. -/
structure ConsolidateResult where
  amountSol : ℚ
  attempts : List TransferAttempt
  output : List LogEvent
  deriving DecidableEq

/-- consolidate lines 35-89, `consolidateWallet(walletIndex, baseWalletPublicKey)`:
skip (return 0) when no private key; query balance via `getWalletBalance`;
skip when `balance <= 0`; fetch a blockhash and a fee estimate (a throw is
caught by the function's `catch`, which logs and returns 0); add a transfer
of `balance * LAMPORTS_PER_SOL - fee` lamports — the source checks only
`balance <= 0`, never `balance` against `fee` — and submit; a submission
error is caught, logged, and 0 returned; on success the amount
`(balance * LAMPORTS_PER_SOL - fee) / LAMPORTS_PER_SOL` is returned. -/
def consolidateWallet (walletIndex : Nat) (baseWalletPublicKey : String)
    (env : ConsolidateWalletEnv) : ConsolidateResult :=
  match env.privateKey with
  | none => ⟨0, [], [.skipNoPrivateKey (walletIndex + 1)]⟩
  | some key =>
    let pubkey := derivePublicKey key
    let bal := getWalletBalance env.balanceQuery
    if bal.1 ≤ 0 then
      ⟨0, [], bal.2 ++ [.skipNoBalance (walletIndex + 1)]⟩
    else
      let logs1 := bal.2 ++ [.processingWallet (walletIndex + 1) pubkey bal.1]
      match env.blockhashQuery with
      | .error e => ⟨0, [], logs1 ++ [.errorConsolidating (walletIndex + 1) e]⟩
      | .ok _ =>
        match env.feeQuery with
        | .error e => ⟨0, [], logs1 ++ [.errorConsolidating (walletIndex + 1) e]⟩
        | .ok fee =>
          let attempt : TransferAttempt :=
            ⟨pubkey, baseWalletPublicKey, bal.1 * LAMPORTS_PER_SOL - fee⟩
          match env.sendOutcome with
          | .ok signature =>
            ⟨(bal.1 * LAMPORTS_PER_SOL - fee) / LAMPORTS_PER_SOL, [attempt],
              logs1 ++ [.transferSuccess
                ((bal.1 * LAMPORTS_PER_SOL - fee) / LAMPORTS_PER_SOL) signature]⟩
          | .error e => ⟨0, [attempt], logs1 ++ [.errorConsolidating (walletIndex + 1) e]⟩

/-- Whether a `consolidateWallet` run returned a success result (printed the
`Transfer successful!` report). -/
def isSuccessResult (r : ConsolidateResult) : Bool :=
  r.output.any isSuccessLog

/-- The per-wallet runs the consolidation loop body performs: wallet `i`
against its environment, with the loop's destination public key. -/
def consolidateRuns (base : String) : Nat → List ConsolidateWalletEnv → List ConsolidateResult
  | _, [] => []
  | i, env :: rest => consolidateWallet i base env :: consolidateRuns base (i + 1) rest

/-- The aggregate the spec describes: the sum of the reported amounts of
exactly the runs that returned a success result. -/
def successTotal (rs : List ConsolidateResult) : ℚ :=
  (rs.map fun r => if isSuccessResult r then r.amountSol else 0).sum

/-- A lexical scope: the `const` bindings (of PublicKey values) visible at a
given point of the function body, innermost first. -/
abbrev Scope := List (String × String)

/-- Resolution of an identifier against a scope; `none` means the reference
throws `ReferenceError` at runtime (ES modules are strict mode). -/
def scopeLookup (s : Scope) (varName : String) : Option String :=
  match s with
  | [] => none
  | (n, v) :: rest => if n = varName then some v else scopeLookup rest varName

/-- The function-level bindings of PublicKey values visible at the loop of
consolidate `main` (line 140).  The only declaration of
`baseWalletPublicKey` in the whole file is `const baseWalletPublicKey = new
PublicKey(...)` inside the inner `try { }` block (lines 126-131); a `const`
binding is scoped to its enclosing block, so it has gone out of scope by the
time the loop runs and no binding of that name is visible there. -/
def mainScopeAtLoop : Scope := []

/-- The observable behaviour of the consolidation loop (lines 139-142):
the total it accumulated or the error it threw, how many times
`consolidateWallet` was actually invoked, and every transfer constructed. -/
structure LoopTrace where
  outcome : Except String ℚ
  walletOpCalls : Nat
  attempts : List TransferAttempt
  deriving DecidableEq

/-- consolidate lines 139-142: `for (i...) { totalConsolidated += await
consolidateWallet(i, baseWalletPublicKey) }`.  Each iteration first
evaluates the argument `baseWalletPublicKey` by resolving it in the scope
visible at the loop; an unresolved reference throws before the callee is
invoked, and the throw propagates out of the loop (there is no catch inside
it). -/
def consolidateLoopGo (scopeAtLoop : Scope) :
    List ConsolidateWalletEnv → Nat → ℚ → Nat → List TransferAttempt → LoopTrace
  | [], _, total, calls, att => ⟨.ok total, calls, att⟩
  | env :: rest, i, total, calls, att =>
    match scopeLookup scopeAtLoop "baseWalletPublicKey" with
    | none => ⟨.error "ReferenceError: baseWalletPublicKey is not defined", calls, att⟩
    | some base =>
      let r := consolidateWallet i base env
      consolidateLoopGo scopeAtLoop rest (i + 1) (total + r.amountSol) (calls + 1)
        (att ++ r.attempts)

/-- The configuration consolidate `main` reads before its loop:
`process.env.BASE_WALLET_ADDRESS`, whether `new PublicKey(...)` on it
succeeds, and the confirmation prompt's answer. -/
structure ConsolidateMainEnv where
  baseWalletAddress : Option String
  baseAddressValid : Bool
  confirm : Bool
  deriving DecidableEq

/-- How a run of consolidate `main` ends. -/
inductive ConsolidateMainOutcome where
  | missingBaseAddress
  | invalidBaseAddress
  | cancelled
  | completed (totalConsolidated : ℚ)
  | caughtError (message : String)
  deriving DecidableEq

/-- The observable behaviour of one consolidate `main` run. -/
structure ConsolidateMainTrace where
  outcome : ConsolidateMainOutcome
  walletOpCalls : Nat
  attempts : List TransferAttempt
  deriving DecidableEq

/-- consolidate lines 118-153, `main()`: return early when
`BASE_WALLET_ADDRESS` is absent; validate it inside an inner try block
(whose `const baseWalletPublicKey` does not outlive the block); on a
confirmed prompt run the loop with the scope actually visible there
(`mainScopeAtLoop`); any error thrown by the loop is caught by the
function's outer catch. -/
def consolidateMain (menv : ConsolidateMainEnv)
    (wallets : List ConsolidateWalletEnv) : ConsolidateMainTrace :=
  match menv.baseWalletAddress with
  | none => ⟨.missingBaseAddress, 0, []⟩
  | some _ =>
    if !menv.baseAddressValid then ⟨.invalidBaseAddress, 0, []⟩
    else if menv.confirm then
      let t := consolidateLoopGo mainScopeAtLoop wallets 0 0 0 []
      match t.outcome with
      | .ok total => ⟨.completed total, t.walletOpCalls, t.attempts⟩
      | .error e => ⟨.caughtError e, t.walletOpCalls, t.attempts⟩
    else ⟨.cancelled, 0, []⟩

/-! ## Buy bot (src/src/buyBot.js) -/

/-- One entry of `walletConfig.wallets` in config/wallets.json. -/
structure WalletInfo where
  name : String
  publicKey : String
  amount : ℚ
  deriving DecidableEq

/-- The external-world outcomes one `executeBuyWithWallet` call observes:
the private-key env variable, the trade-quote request (a rejected fetch or
an HTTP status), and the deserialize/sign/submit step. -/
structure BuyWalletEnv where
  privateKey : Option String
  quoteOutcome : Except String Nat
  sendOutcome : Except String String
  deriving DecidableEq

/-- buyBot.js lines 100-146, `executeBuyWithWallet`: skip (with a warning)
when no private key; request a quote; only when `response.status === 200`
deserialize, sign and submit — there is no `else` branch, so any other
status falls through to `return undefined` with no message; any throw is
caught and logged with the wallet's name. -/
def executeBuyWithWallet (walletIndex : Nat) (walletInfo : WalletInfo)
    (env : BuyWalletEnv) : Option String × List LogEvent :=
  match env.privateKey with
  | none => (none, [.skipNoPrivateKey (walletIndex + 1)])
  | some _ =>
    let logs0 : List LogEvent := [.executingBuy walletInfo.name walletInfo.amount]
    match env.quoteOutcome with
    | .error e => (none, logs0 ++ [.errorWithWallet walletInfo.name e])
    | .ok status =>
      if status = 200 then
        match env.sendOutcome with
        | .ok signature => (some signature, logs0 ++ [.tradeSuccess walletInfo.name signature])
        | .error e => (none, logs0 ++ [.errorWithWallet walletInfo.name e])
      else (none, logs0)

/-- buyBot.js lines 148-163, the body of `executeMultiWalletBuy`: iterate
`walletConfig.wallets` in order (index `i` from 0), with a sleep between
iterations (not part of the state), invoking `executeBuyWithWallet` for
each; record each wallet with its result. -/
def buyLoopGo (envs : Nat → BuyWalletEnv) :
    Nat → List WalletInfo → List (WalletInfo × Option String)
  | _, [] => []
  | i, w :: rest =>
    (w, (executeBuyWithWallet i w (envs i)).1) :: buyLoopGo envs (i + 1) rest

/-- buyBot.js `executeMultiWalletBuy`: the sequential batch over the
configured wallet list. -/
def executeMultiWalletBuy (envs : Nat → BuyWalletEnv)
    (wallets : List WalletInfo) : List (WalletInfo × Option String) :=
  buyLoopGo envs 0 wallets

/-! ## Sell bot (src/src/sellBot.js) -/

/-- The external-world outcomes one `executeSellWithWallet` call observes:
the private-key env variable, `getParsedTokenAccountsByOwner` (the
`uiAmount` of each returned token account), the quote request and the
submission. -/
structure SellWalletEnv where
  privateKey : Option String
  tokenAccountsQuery : Except String (List ℚ)
  quoteOutcome : Except String Nat
  sendOutcome : Except String String
  deriving DecidableEq

/-- The parameters `main` passes to the sell batch. -/
structure SellParams where
  percentToSell : ℚ
  slippage : ℚ
  priorityFee : ℚ
  deriving DecidableEq

/-- What one `executeSellWithWallet` call did: its return value, the
`amount` field of the quote request if one was issued, and its console
output. -/
structure SellRun where
  result : Option String
  requestedAmount : Option ℚ
  output : List LogEvent
  deriving DecidableEq

/-- sellBot.js lines 113-184, `executeSellWithWallet`: skip when no private
key; query the wallet's token accounts (a throw is caught and logged); skip
with `No token balance found` when none exist; take the first account's
`uiAmount` as `tokenBalance`; `amountToSell = percentToSell === 100 ?
tokenBalance : tokenBalance * percentToSell / 100`; skip with `Insufficient
balance` when `amountToSell <= 0`; request a sell quote for `amountToSell`;
only on status 200 sign and submit (any other status falls through
silently); throws are caught and logged with the wallet's name. -/
def executeSellWithWallet (walletIndex : Nat) (walletInfo : WalletInfo)
    (env : SellWalletEnv) (baseParams : SellParams) : SellRun :=
  match env.privateKey with
  | none => ⟨none, none, [.skipNoPrivateKey (walletIndex + 1)]⟩
  | some _ =>
    let logs0 : List LogEvent := [.executingSell walletInfo.name]
    match env.tokenAccountsQuery with
    | .error e => ⟨none, none, logs0 ++ [.errorWithWallet walletInfo.name e]⟩
    | .ok [] => ⟨none, none, logs0 ++ [.noTokenBalance walletInfo.name]⟩
    | .ok (tokenBalance :: _) =>
      let logs1 := logs0 ++ [.currentBalance tokenBalance]
      let amountToSell :=
        if baseParams.percentToSell = 100 then tokenBalance
        else tokenBalance * baseParams.percentToSell / 100
      if amountToSell ≤ 0 then
        ⟨none, none, logs1 ++ [.insufficientBalance walletInfo.name]⟩
      else
        match env.quoteOutcome with
        | .error e => ⟨none, some amountToSell, logs1 ++ [.errorWithWallet walletInfo.name e]⟩
        | .ok status =>
          if status = 200 then
            match env.sendOutcome with
            | .ok signature =>
              ⟨some signature, some amountToSell,
                logs1 ++ [.tradeSuccess walletInfo.name signature]⟩
            | .error e =>
              ⟨none, some amountToSell, logs1 ++ [.errorWithWallet walletInfo.name e]⟩
          else ⟨none, some amountToSell, logs1⟩

/-- One comparator-driven insertion of `x` into a list, consuming one
comparator outcome (`coin`) per comparison: `true` places `x` before the
head, `false` keeps descending.  An exhausted outcome stream behaves as
`true`. -/
def jsSortInsert : List Bool → α → List α → List α × List Bool
  | coins, x, [] => ([x], coins)
  | [], x, y :: ys => (x :: y :: ys, [])
  | c :: rest, x, y :: ys =>
    if c then (x :: y :: ys, rest)
    else
      let p := jsSortInsert rest x ys
      (y :: p.1, p.2)

/-- A comparison sort driven by a stream of comparator outcomes.  sellBot.js
line 190-191 shuffles with `[...walletConfig.wallets].sort(() =>
Math.random() - 0.5)`: ECMAScript leaves the sorting algorithm and the
behaviour under an inconsistent comparator implementation-defined, but every
implementation is a comparison sort that rearranges the very elements of the
array, so we model it as a comparison sort whose comparator answers are an
arbitrary stream and prove the claims for every stream. -/
def jsSortGo : List Bool → List α → List α × List Bool
  | coins, [] => ([], coins)
  | coins, x :: xs =>
    let p := jsSortGo coins xs
    jsSortInsert p.2 x p.1

/-- sellBot.js lines 190-191: the shuffled copy of the wallet list the sell
batch iterates. -/
def jsShuffle (coins : List Bool) (wallets : List α) : List α :=
  (jsSortGo coins wallets).1

/-- sellBot.js lines 193-209, the body of `executeMultiWalletSell`'s loop:
iterate the shuffled list, re-deriving each wallet's original index with
`walletConfig.wallets.findIndex(w => w.name === wallet.name)` (line 204),
and invoke `executeSellWithWallet`; record each wallet with its result.
Per-wallet environments are keyed by wallet name. -/
def sellLoopGo (envs : String → SellWalletEnv) (baseParams : SellParams)
    (originalWallets : List WalletInfo) :
    List WalletInfo → List (WalletInfo × Option String)
  | [] => []
  | w :: rest =>
    let idx := originalWallets.findIdx fun ow => ow.name == w.name
    (w, (executeSellWithWallet idx w (envs w.name) baseParams).result) ::
      sellLoopGo envs baseParams originalWallets rest

/-- sellBot.js `executeMultiWalletSell`: the shuffled batch over the
configured wallet list. -/
def executeMultiWalletSell (coins : List Bool) (envs : String → SellWalletEnv)
    (baseParams : SellParams) (wallets : List WalletInfo) :
    List (WalletInfo × Option String) :=
  sellLoopGo envs baseParams wallets (jsShuffle coins wallets)

/-! ## Fund-wallets script (second file inside src/src/createToken.js) -/

/-- The outcome of one `sendTransaction` inside `fundWallet`. -/
structure FundWalletEnv where
  sendOutcome : Except String String
  deriving DecidableEq

/-- fund-wallets lines 446-463, `fundWallet`: build a transfer of
`Math.floor(amount * LAMPORTS_PER_SOL)` lamports from the funding wallet to
the destination and submit it; a throw is rethrown to the caller. -/
def fundWallet (sourcePubkey destinationPublicKey : String) (amount : ℚ)
    (env : FundWalletEnv) : TransferAttempt × Except String String :=
  (⟨sourcePubkey, destinationPublicKey, ((⌊amount * LAMPORTS_PER_SOL⌋ : ℤ) : ℚ)⟩,
    env.sendOutcome)

/-- fund-wallets lines 485-504, the funding loop of `main`: for each wallet,
log `Funding <name>...`, call `fundWallet` inside a per-wallet try/catch; on
success add `solPerWallet` to `totalFunded` and log the transfer, on a
caught error log it with the wallet's name and continue. -/
def fundLoopGo (sourcePubkey : String) (solPerWallet : ℚ)
    (envs : String → FundWalletEnv) : List WalletInfo → ℚ × List LogEvent
  | [] => (0, [])
  | w :: rest =>
    let step : ℚ × List LogEvent :=
      match (fundWallet sourcePubkey w.publicKey solPerWallet (envs w.publicKey)).2 with
      | .ok signature =>
        (solPerWallet, [.fundingWallet w.name, .fundTransferSuccess solPerWallet signature])
      | .error e => (0, [.fundingWallet w.name, .errorFundingWallet w.name e])
    let restRun := fundLoopGo sourcePubkey solPerWallet envs rest
    (step.1 + restRun.1, step.2 ++ restRun.2)

/-- Whether an external call succeeded. -/
def exceptIsOk : Except String String → Bool
  | .ok _ => true
  | .error _ => false

/-- Whether a console message is the funding loop's per-wallet
`Funding <name>...` announcement. -/
def isFundingAttemptLog : LogEvent → Bool
  | .fundingWallet _ => true
  | _ => false

/-! ## Token creation (first file inside src/src/createToken.js) -/

/-- The metadata collected by the prompts and passed to
`createTokenBundle`. -/
structure TokenData where
  tokenName : String
  tokenSymbol : String
  tokenDescription : String
  xLink : String
  telegramLink : String
  websiteLink : String
  imagePath : String
  amount : ℚ
  deriving DecidableEq

/-- The external-world outcomes one `createTokenBundle` call observes: the
two creator/buyer private keys from the env, the freshly generated mint
keypair's public key, the IPFS metadata upload (its JSON's `metadataUri`
field, which may be absent), the bundle quote request (a rejected fetch or
an HTTP status with the response's transaction array), and the Jito bundle
submission. -/
structure CreateTokenEnv where
  walletAKey : Option String
  walletBKey : Option String
  mintPublicKey : String
  uploadOutcome : Except String (Option String)
  quoteOutcome : Except String (Nat × List String)
  jitoOutcome : Except String Unit
  deriving DecidableEq

/-- Signing of one serialized transaction (locally, with the respective
keypair(s)); modelled as a tagging of the payload. -/
def signAndEncode (tx : String) : String := "signed:" ++ tx

/-- The first signature of a signed transaction. -/
def signatureOf (tx : String) : String := "sig:" ++ tx

/-- The observable behaviour of one `createTokenBundle` call: its
return/throw, how many transactions were signed, and whether a bundle
submission to the relay was issued. -/
structure CreateTokenTrace where
  result : Except String (List String × String)
  signedTransactionCount : Nat
  bundleSubmitted : Bool
  deriving DecidableEq

/-- createToken.js lines 162-281, `createTokenBundle`: decode the two signer
keys (a throw — e.g. a missing env variable — is caught by the function's
catch and rethrown); generate the mint keypair; upload metadata (an upload
or JSON-parse rejection aborts via the same catch); request the two bundled
transactions; only when `response.status === 200` deserialize and sign the
two transactions and submit them as one bundle to the Jito relay (whose
response content is not checked); a non-200 status throws `Failed to
generate transactions` before anything is signed. -/
def createTokenBundle (env : CreateTokenEnv) (tokenData : TokenData) : CreateTokenTrace :=
  match env.walletAKey, env.walletBKey with
  | none, _ => ⟨.error "bs58 decode failed: WALLET_A_PRIVATE_KEY", 0, false⟩
  | some _, none => ⟨.error "bs58 decode failed: WALLET_B_PRIVATE_KEY", 0, false⟩
  | some _, some _ =>
    match env.uploadOutcome with
    | .error e => ⟨.error e, 0, false⟩
    | .ok _ =>
      match env.quoteOutcome with
      | .error e => ⟨.error e, 0, false⟩
      | .ok (status, transactions) =>
        if status = 200 then
          let signedTransactions :=
            [signAndEncode (transactions.getD 0 ""), signAndEncode (transactions.getD 1 "")]
          let signatures :=
            [signatureOf (transactions.getD 0 ""), signatureOf (transactions.getD 1 "")]
          match env.jitoOutcome with
          | .error e => ⟨.error e, signedTransactions.length, true⟩
          | .ok _ =>
            ⟨.ok (signatures, env.mintPublicKey), signedTransactions.length, true⟩
        else ⟨.error "Failed to generate transactions", 0, false⟩

/-! ## Backup key store (fund-wallets `generateAndSaveWallets`, lines 407-429) -/

/-- One timestamped batch appended to `private_keys_backup.json`: the
`WALLET_<i>_PRIVATE_KEY` entries plus the `walletPublicKeys` array. -/
structure BackupBatch where
  privateKeys : List (String × String)
  walletPublicKeys : List String
  deriving DecidableEq

/-- The backup history document, keyed by ISO-8601 timestamp. -/
def BackupStore := String → Option BackupBatch

/-- fund-wallets lines 407-429: load the existing backup document (`{}` when
absent), set `existing[timestamp] = { ...privateKeys, walletPublicKeys }`,
and write the document back — a keyed insert that leaves every other
timestamp's batch in place. -/
def appendBackupBatch (store : BackupStore) (timestamp : String)
    (batch : BackupBatch) : BackupStore :=
  fun key => if key = timestamp then some batch else store key

/-- The empty backup document. -/
def emptyBackupStore : BackupStore := fun _ => none

/-! ## Concrete inputs used by counterexamples and witnesses -/

/-- A wallet whose queried balance (5000 lamports) exactly equals the
estimated fee (5000 lamports); submission fails. -/
def consolidateEnvBalanceEqFee : ConsolidateWalletEnv :=
  ⟨some "wallet-key", .ok 5000, .ok "blockhash", .ok 5000, .error "Transaction failed"⟩

/-- A sample configured wallet. -/
def walletInfoExample : WalletInfo :=
  ⟨"Wallet 1", "PUBKEY1", 1/10⟩

/-- A buy environment whose quote request returns HTTP 500. -/
def buyEnvNon200 : BuyWalletEnv :=
  ⟨some "key-1", .ok 500, .ok "sig-1"⟩

/-- A consolidate main configuration with a present, valid base address and
a confirmed prompt. -/
def mainEnvExample : ConsolidateMainEnv :=
  ⟨some "BASEWALLETADDRESS", true, true⟩

/-- A wallet environment holding 2 SOL with every external call succeeding. -/
def consolidateEnvExample : ConsolidateWalletEnv :=
  ⟨some "key-2", .ok 2000000000, .ok "blockhash", .ok 5000, .ok "sig-2"⟩

/-- Sample sell parameters: sell 50 percent, 10 percent slippage. -/
def sellParamsExample : SellParams :=
  ⟨50, 10, 1/100000⟩

/-- A token-creation environment whose quote request returns HTTP 500. -/
def createEnvNon200 : CreateTokenEnv :=
  ⟨some "keyA", some "keyB", "MINT", .ok (some "uri"), .ok (500, ["tx0", "tx1"]), .ok ()⟩

/-- A first backup batch. -/
def backupBatchA : BackupBatch :=
  ⟨[("WALLET_1_PRIVATE_KEY", "secretA")], ["pubA"]⟩

/-- A second backup batch. -/
def backupBatchB : BackupBatch :=
  ⟨[("WALLET_1_PRIVATE_KEY", "secretB")], ["pubB"]⟩

/-! ## Theorems -/

/-- C8: for every DelayRange with 0 ≤ min ≤ max and every `Math.random()`
value in `[0, 1)`, `getRandomDelay min max rand` lies in the closed interval
`[min, max]`; both endpoints are attained — at `rand = 0` the result is
`min`, and at `rand = (max - min)/(max - min + 1)` (a value in `[0, 1)`) the
result is `max`. -/
theorem getRandomDelay_in_range (min max : ℤ) (rand : ℚ)
    (hmin : 0 ≤ min) (hle : min ≤ max) (hr0 : 0 ≤ rand) (hr1 : rand < 1) :
    (min ≤ getRandomDelay min max rand ∧ getRandomDelay min max rand ≤ max) ∧
    getRandomDelay min max 0 = min ∧
    getRandomDelay min max (((max : ℚ) - (min : ℚ)) / ((max : ℚ) - (min : ℚ) + 1)) = max ∧
    0 ≤ ((max : ℚ) - (min : ℚ)) / ((max : ℚ) - (min : ℚ) + 1) ∧
    ((max : ℚ) - (min : ℚ)) / ((max : ℚ) - (min : ℚ) + 1) < 1 := by
  have hle' : (min : ℚ) ≤ (max : ℚ) := by exact_mod_cast hle
  have ht : (0 : ℚ) ≤ (max : ℚ) - (min : ℚ) := by linarith
  have hs : (0 : ℚ) < (max : ℚ) - (min : ℚ) + 1 := by linarith
  refine ⟨⟨?_, ?_⟩, ?_, ?_, ?_, ?_⟩
  · rw [getRandomDelay, Int.le_floor]
    have hnn : 0 ≤ rand * ((max : ℚ) - (min : ℚ) + 1) := mul_nonneg hr0 (le_of_lt hs)
    linarith
  · rw [getRandomDelay]
    have h2 : ⌊rand * ((max : ℚ) - (min : ℚ) + 1) + (min : ℚ)⌋ < max + 1 := by
      rw [Int.floor_lt]
      have hmul : rand * ((max : ℚ) - (min : ℚ) + 1) < 1 * ((max : ℚ) - (min : ℚ) + 1) :=
        mul_lt_mul_of_pos_right hr1 hs
      push_cast
      linarith
    omega
  · simp [getRandomDelay]
  · have hmul : ((max : ℚ) - (min : ℚ)) / ((max : ℚ) - (min : ℚ) + 1) *
        ((max : ℚ) - (min : ℚ) + 1) + (min : ℚ) = (max : ℚ) := by
      field_simp
    rw [getRandomDelay, hmul, Int.floor_intCast]
  · exact div_nonneg ht (le_of_lt hs)
  · rw [div_lt_one hs]
    linarith

/-- C8 witness: with DelayRange {2, 5} and `Math.random() = 1/2` the delay
lies in `[2, 5]`, and `rand = 0` attains the lower endpoint. -/
theorem getRandomDelay_in_range_witness :
    (2 ≤ getRandomDelay 2 5 (1/2) ∧ getRandomDelay 2 5 (1/2) ≤ 5) ∧
    getRandomDelay 2 5 0 = 2 := by
  have h := getRandomDelay_in_range 2 5 (1/2) (by norm_num) (by norm_num)
    (by norm_num) (by norm_num)
  exact ⟨h.1, h.2.1⟩

/-- C6: the backup store is only appended to: after two sequential
`appendBackupBatch` writes under distinct timestamps, the first batch is
still present in full under its timestamp, the second batch is present under
its timestamp, and every other timestamp's entry is untouched. -/
theorem appendBackupBatch_append_only (store : BackupStore) (t1 t2 : String)
    (b1 b2 : BackupBatch) (hne : t1 ≠ t2) :
    appendBackupBatch (appendBackupBatch store t1 b1) t2 b2 t1 = some b1 ∧
    appendBackupBatch (appendBackupBatch store t1 b1) t2 b2 t2 = some b2 ∧
    ∀ k, k ≠ t1 → k ≠ t2 →
      appendBackupBatch (appendBackupBatch store t1 b1) t2 b2 k = store k := by
  refine ⟨?_, ?_, ?_⟩
  · simp [appendBackupBatch, hne]
  · simp [appendBackupBatch]
  · intro k h1 h2
    simp [appendBackupBatch, h1, h2]

/-- C6 witness: round-tripping two concrete batches under two concrete
ISO-8601 timestamps leaves both present. -/
theorem appendBackupBatch_append_only_witness :
    appendBackupBatch (appendBackupBatch emptyBackupStore "2024-01-01T00:00:00.000Z" backupBatchA)
        "2024-01-02T00:00:00.000Z" backupBatchB "2024-01-01T00:00:00.000Z" = some backupBatchA ∧
    appendBackupBatch (appendBackupBatch emptyBackupStore "2024-01-01T00:00:00.000Z" backupBatchA)
        "2024-01-02T00:00:00.000Z" backupBatchB "2024-01-02T00:00:00.000Z" = some backupBatchB := by
  have h := appendBackupBatch_append_only emptyBackupStore "2024-01-01T00:00:00.000Z"
    "2024-01-02T00:00:00.000Z" backupBatchA backupBatchB (by decide)
  exact ⟨h.1, h.2.1⟩

/-- C10: `getWalletBalance` never propagates an error — a failed balance
query logs the error and yields 0 — and `consolidateWallet` then treats the
wallet exactly like a zero-balance wallet: it is skipped (`skipNoBalance` is
printed, the fetch error is surfaced), no transfer is constructed, and the
wallet contributes 0 — the same amount and attempts as with a balance of 0. -/
theorem getWalletBalance_error_as_zero (i : Nat) (base key e : String)
    (bh : Except String String) (fq : Except String ℚ) (send : Except String String) :
    (getWalletBalance (.error e)).1 = 0 ∧
    (getWalletBalance (.error e)).2 = [.errorFetchingBalance e] ∧
    (consolidateWallet i base ⟨some key, .error e, bh, fq, send⟩).amountSol = 0 ∧
    (consolidateWallet i base ⟨some key, .error e, bh, fq, send⟩).attempts = [] ∧
    LogEvent.skipNoBalance (i + 1) ∈
      (consolidateWallet i base ⟨some key, .error e, bh, fq, send⟩).output ∧
    LogEvent.errorFetchingBalance e ∈
      (consolidateWallet i base ⟨some key, .error e, bh, fq, send⟩).output ∧
    (consolidateWallet i base ⟨some key, .error e, bh, fq, send⟩).amountSol =
      (consolidateWallet i base ⟨some key, .ok 0, bh, fq, send⟩).amountSol ∧
    (consolidateWallet i base ⟨some key, .error e, bh, fq, send⟩).attempts =
      (consolidateWallet i base ⟨some key, .ok 0, bh, fq, send⟩).attempts := by
  simp [consolidateWallet, getWalletBalance]

/-- C2 counterexample: a wallet whose queried balance (5000 lamports) equals
the estimated fee (5000 lamports) is NOT skipped — `consolidateWallet`
constructs and submits a transfer of `balance - fee = 0` lamports, because
the source only checks `balance <= 0`, never `balance` against the fee.  The
wallet still contributes 0 to the total. -/
theorem consolidate_balance_eq_fee_attempts_transfer :
    (consolidateWallet 0 "BASE" consolidateEnvBalanceEqFee).attempts =
      [⟨derivePublicKey "wallet-key", "BASE", 0⟩] ∧
    (consolidateWallet 0 "BASE" consolidateEnvBalanceEqFee).amountSol = 0 := by
  norm_num [consolidateWallet, consolidateEnvBalanceEqFee, getWalletBalance,
    LAMPORTS_PER_SOL]

/-- C2 (amended): `consolidateWallet` guards only against a non-positive
balance, not against `balance ≤ fee`.  For every wallet with positive
queried balance (in lamports) and successful blockhash and fee queries, a
transfer of `balance - fee` lamports is constructed and submitted even when
that amount is zero or negative; the wallet contributes
`(balance - fee)/LAMPORTS_PER_SOL` on submission success and 0 on failure,
so at `balance = fee` it contributes 0 either way. -/
theorem consolidate_no_fee_guard (i : Nat) (base key : String) (lamports fee : ℚ)
    (bh : String) (send : Except String String) (hpos : 0 < lamports) :
    (consolidateWallet i base ⟨some key, .ok lamports, .ok bh, .ok fee, send⟩).attempts =
      [⟨derivePublicKey key, base, lamports - fee⟩] ∧
    (consolidateWallet i base ⟨some key, .ok lamports, .ok bh, .ok fee, send⟩).amountSol =
      (match send with
        | .ok _ => (lamports - fee) / LAMPORTS_PER_SOL
        | .error _ => 0) ∧
    (lamports = fee →
      (consolidateWallet i base ⟨some key, .ok lamports, .ok bh, .ok fee, send⟩).amountSol = 0) := by
  have hL : (0 : ℚ) < LAMPORTS_PER_SOL := by norm_num [LAMPORTS_PER_SOL]
  have hbal : ¬ (lamports / LAMPORTS_PER_SOL ≤ 0) := by
    push_neg
    exact div_pos hpos hL
  have hcancel : lamports / LAMPORTS_PER_SOL * LAMPORTS_PER_SOL = lamports :=
    div_mul_cancel₀ _ (ne_of_gt hL)
  cases send with
  | ok s =>
    refine ⟨?_, ?_, ?_⟩
    · simp [consolidateWallet, getWalletBalance, hbal, hcancel]
    · simp [consolidateWallet, getWalletBalance, hbal, hcancel]
    · intro hfee
      subst hfee
      simp [consolidateWallet, getWalletBalance, hbal, hcancel]
  | error e =>
    refine ⟨?_, ?_, ?_⟩
    · simp [consolidateWallet, getWalletBalance, hbal, hcancel]
    · simp [consolidateWallet, getWalletBalance, hbal, hcancel]
    · intro hfee
      simp [consolidateWallet, getWalletBalance, hbal, hcancel]

/-- C2 witness: the amended statement at the boundary input — balance 5000
lamports, fee 5000 lamports, failing submission — where the constructed
transfer carries `5000 - 5000 = 0` lamports. -/
theorem consolidate_no_fee_guard_witness :
    (consolidateWallet 0 "BASE" consolidateEnvBalanceEqFee).attempts =
      [⟨derivePublicKey "wallet-key", "BASE", (5000 : ℚ) - 5000⟩] :=
  (consolidate_no_fee_guard 0 "BASE" "wallet-key" 5000 5000 "blockhash"
    (.error "Transaction failed") (by norm_num)).1

/-- Inserting an element with any stream of comparator outcomes yields a
permutation of placing it in front. -/
theorem jsSortInsert_perm (x : α) :
    ∀ (l : List α) (coins : List Bool), (jsSortInsert coins x l).1.Perm (x :: l) := by
  intro l
  induction l with
  | nil =>
    intro coins
    simp [jsSortInsert]
  | cons y ys ih =>
    intro coins
    cases coins with
    | nil => simp [jsSortInsert]
    | cons c rest =>
      cases c with
      | true => simp [jsSortInsert]
      | false =>
        simp only [jsSortInsert, Bool.false_eq_true, if_false]
        exact ((ih rest).cons y).trans (List.Perm.swap x y ys)

/-- The comparator-driven sort yields a permutation of its input, for every
stream of comparator outcomes. -/
theorem jsSortGo_perm :
    ∀ (l : List α) (coins : List Bool), (jsSortGo coins l).1.Perm l := by
  intro l
  induction l with
  | nil =>
    intro coins
    simp [jsSortGo]
  | cons x xs ih =>
    intro coins
    simp only [jsSortGo]
    exact (jsSortInsert_perm x (jsSortGo coins xs).1 (jsSortGo coins xs).2).trans
      ((ih coins).cons x)

/-- The sell shuffle is a permutation of the configured wallet list. -/
theorem jsShuffle_perm (coins : List Bool) (l : List α) :
    (jsShuffle coins l).Perm l :=
  jsSortGo_perm l coins

/-- The buy loop records exactly the wallets it was given, in order. -/
theorem buyLoopGo_map_fst (envs : Nat → BuyWalletEnv) :
    ∀ (l : List WalletInfo) (i : Nat), (buyLoopGo envs i l).map Prod.fst = l := by
  intro l
  induction l with
  | nil => intro i; simp [buyLoopGo]
  | cons w rest ih =>
    intro i
    simp [buyLoopGo, ih]

/-- The sell loop records exactly the wallets it was given, in order. -/
theorem sellLoopGo_map_fst (envs : String → SellWalletEnv) (p : SellParams)
    (ows : List WalletInfo) :
    ∀ l : List WalletInfo, (sellLoopGo envs p ows l).map Prod.fst = l := by
  intro l
  induction l with
  | nil => simp [sellLoopGo]
  | cons w rest ih => simp [sellLoopGo, ih]

/-- A `consolidateWallet` run that did not return a success result reported
amount 0; equivalently, filtering its amount through its success flag is the
identity. -/
theorem consolidateWallet_amount_ite (i : Nat) (base : String) (env : ConsolidateWalletEnv) :
    (if isSuccessResult (consolidateWallet i base env) then
        (consolidateWallet i base env).amountSol else 0)
      = (consolidateWallet i base env).amountSol := by
  rcases env with ⟨pk, bq, bh, fq, so⟩
  cases pk with
  | none => simp [consolidateWallet, isSuccessResult, isSuccessLog]
  | some key =>
    cases bq with
    | error e =>
      simp [consolidateWallet, getWalletBalance, isSuccessResult, isSuccessLog]
    | ok lam =>
      by_cases hb : lam / LAMPORTS_PER_SOL ≤ 0
      · simp [consolidateWallet, getWalletBalance, hb, isSuccessResult, isSuccessLog]
      · cases bh with
        | error e =>
          simp [consolidateWallet, getWalletBalance, hb, isSuccessResult, isSuccessLog]
        | ok bhv =>
          cases fq with
          | error e =>
            simp [consolidateWallet, getWalletBalance, hb, isSuccessResult, isSuccessLog]
          | ok fee =>
            cases so with
            | ok s =>
              simp [consolidateWallet, getWalletBalance, hb, isSuccessResult, isSuccessLog]
            | error e =>
              simp [consolidateWallet, getWalletBalance, hb, isSuccessResult, isSuccessLog]

/-- A `consolidateWallet` run that did not return a success result
contributes exactly 0. -/
theorem consolidateWallet_failure_amount (i : Nat) (base : String)
    (env : ConsolidateWalletEnv)
    (h : isSuccessResult (consolidateWallet i base env) = false) :
    (consolidateWallet i base env).amountSol = 0 := by
  have := consolidateWallet_amount_ite i base env
  rw [h] at this
  simpa using this.symm

/-- Every element of `consolidateRuns` is a `consolidateWallet` run. -/
theorem consolidateRuns_mem (base : String) :
    ∀ (l : List ConsolidateWalletEnv) (i : Nat) (r : ConsolidateResult),
      r ∈ consolidateRuns base i l → ∃ j env, r = consolidateWallet j base env := by
  intro l
  induction l with
  | nil =>
    intro i r hr
    simp [consolidateRuns] at hr
  | cons env rest ih =>
    intro i r hr
    simp only [consolidateRuns, List.mem_cons] at hr
    rcases hr with h | h
    · exact ⟨i, env, h⟩
    · exact ih (i + 1) r h

/-- When the loop's destination reference resolves, the consolidation loop
visits every wallet and accumulates exactly the success total. -/
theorem consolidateLoopGo_resolved (s : Scope) (base : String)
    (hs : scopeLookup s "baseWalletPublicKey" = some base) :
    ∀ (envs : List ConsolidateWalletEnv) (i : Nat) (total : ℚ) (calls : Nat)
      (att : List TransferAttempt),
    (consolidateLoopGo s envs i total calls att).outcome
        = .ok (total + successTotal (consolidateRuns base i envs)) ∧
    (consolidateLoopGo s envs i total calls att).walletOpCalls = calls + envs.length := by
  intro envs
  induction envs with
  | nil =>
    intro i total calls att
    simp [consolidateLoopGo, consolidateRuns, successTotal]
  | cons env rest ih =>
    intro i total calls att
    have hamt := consolidateWallet_amount_ite i base env
    obtain ⟨h1, h2⟩ := ih (i + 1) (total + (consolidateWallet i base env).amountSol)
      (calls + 1) (att ++ (consolidateWallet i base env).attempts)
    constructor
    · simp only [consolidateLoopGo, hs]
      rw [h1]
      have htot : total + (consolidateWallet i base env).amountSol +
          successTotal (consolidateRuns base (i + 1) rest)
          = total + successTotal (consolidateRuns base i (env :: rest)) := by
        simp only [consolidateRuns, successTotal, List.map_cons, List.sum_cons]
        rw [hamt]
        ring
      rw [htot]
    · simp only [consolidateLoopGo, hs]
      rw [h2]
      simp [Nat.add_assoc, Nat.add_comm 1 rest.length]

/-- The funding loop accumulates `solPerWallet` for exactly the transfers
that succeeded and announces every wallet. -/
theorem fundLoopGo_spec (sourcePubkey : String) (solPerWallet : ℚ)
    (fenvs : String → FundWalletEnv) :
    ∀ ws : List WalletInfo,
    (fundLoopGo sourcePubkey solPerWallet fenvs ws).1 =
      (ws.map fun w => if exceptIsOk (fenvs w.publicKey).sendOutcome
        then solPerWallet else 0).sum ∧
    (fundLoopGo sourcePubkey solPerWallet fenvs ws).2.countP isFundingAttemptLog
        = ws.length := by
  intro ws
  induction ws with
  | nil => simp [fundLoopGo]
  | cons w rest ih =>
    obtain ⟨ih1, ih2⟩ := ih
    cases h : (fenvs w.publicKey).sendOutcome with
    | ok s =>
      constructor
      · simp [fundLoopGo, fundWallet, h, exceptIsOk, ih1]
      · simp [fundLoopGo, fundWallet, h, List.countP_cons, isFundingAttemptLog, ih2]
    | error e =>
      constructor
      · simp [fundLoopGo, fundWallet, h, exceptIsOk, ih1]
      · simp [fundLoopGo, fundWallet, h, List.countP_cons, isFundingAttemptLog, ih2]

/-- C1: for every wallet list run by a batch, per-wallet failures are caught
and the loop continues — the buy loop visits every configured wallet in
order, the sell loop visits every shuffled wallet, the consolidation loop
(once its destination reference resolves) invokes the per-wallet operation
once per wallet, and the funding loop announces every wallet — and the
aggregate totals (consolidation, funding) equal the sum of the amounts of
exactly the operations that returned a success result, with every failed or
skipped wallet contributing exactly 0. -/
theorem batch_failures_and_totals (base : String) (envs : List ConsolidateWalletEnv)
    (wallets : List WalletInfo) (benvs : Nat → BuyWalletEnv)
    (senvs : String → SellWalletEnv) (p : SellParams) (coins : List Bool)
    (sourcePubkey : String) (solPerWallet : ℚ) (fenvs : String → FundWalletEnv) :
    (consolidateLoopGo [("baseWalletPublicKey", base)] envs 0 0 0 []).outcome
        = .ok (successTotal (consolidateRuns base 0 envs)) ∧
    (consolidateLoopGo [("baseWalletPublicKey", base)] envs 0 0 0 []).walletOpCalls
        = envs.length ∧
    (∀ r ∈ consolidateRuns base 0 envs, isSuccessResult r = false → r.amountSol = 0) ∧
    (executeMultiWalletBuy benvs wallets).map Prod.fst = wallets ∧
    (executeMultiWalletSell coins senvs p wallets).map Prod.fst = jsShuffle coins wallets ∧
    (jsShuffle coins wallets).length = wallets.length ∧
    (fundLoopGo sourcePubkey solPerWallet fenvs wallets).1 =
      (wallets.map fun w => if exceptIsOk (fenvs w.publicKey).sendOutcome
        then solPerWallet else 0).sum ∧
    (fundLoopGo sourcePubkey solPerWallet fenvs wallets).2.countP isFundingAttemptLog
        = wallets.length := by
  have hres : scopeLookup [("baseWalletPublicKey", base)] "baseWalletPublicKey" = some base := by
    simp [scopeLookup]
  obtain ⟨hc1, hc2⟩ := consolidateLoopGo_resolved _ base hres envs 0 0 0 []
  obtain ⟨hf1, hf2⟩ := fundLoopGo_spec sourcePubkey solPerWallet fenvs wallets
  refine ⟨by simpa using hc1, by simpa using hc2, ?_, ?_, ?_, ?_, hf1, hf2⟩
  · intro r hr hfail
    obtain ⟨j, env, rfl⟩ := consolidateRuns_mem base envs 0 r hr
    exact consolidateWallet_failure_amount j base env hfail
  · exact buyLoopGo_map_fst benvs wallets 0
  · exact sellLoopGo_map_fst senvs p wallets (jsShuffle coins wallets)
  · exact (jsShuffle_perm coins wallets).length_eq

/-- C4: the shuffled ordering used for sell batches is a permutation of the
configured wallet list — same multiset, each wallet exactly once — for every
resolution of the random comparator, and the sequential ordering used for
buy batches processes the wallets in their original order. -/
theorem batch_orderings (coins : List Bool) (wallets : List WalletInfo)
    (benvs : Nat → BuyWalletEnv) (senvs : String → SellWalletEnv) (p : SellParams) :
    ((executeMultiWalletSell coins senvs p wallets).map Prod.fst).Perm wallets ∧
    (executeMultiWalletBuy benvs wallets).map Prod.fst = wallets := by
  constructor
  · rw [executeMultiWalletSell, sellLoopGo_map_fst senvs p wallets (jsShuffle coins wallets)]
    exact jsShuffle_perm coins wallets
  · exact buyLoopGo_map_fst benvs wallets 0

/-- When the computed sell amount is positive, the quote request is issued
with exactly that amount, whatever the quote and submission outcomes. -/
theorem executeSellWithWallet_requested (i : Nat) (w : WalletInfo) (key : String)
    (b : ℚ) (rest : List ℚ) (quote : Except String Nat) (send : Except String String)
    (p : SellParams)
    (hpos : ¬ ((if p.percentToSell = 100 then b else b * p.percentToSell / 100) ≤ 0)) :
    (executeSellWithWallet i w ⟨some key, .ok (b :: rest), quote, send⟩ p).requestedAmount
      = some (if p.percentToSell = 100 then b else b * p.percentToSell / 100) := by
  cases quote with
  | error e => simp [executeSellWithWallet, hpos]
  | ok status =>
    by_cases hst : status = 200
    · cases send with
      | ok s => simp [executeSellWithWallet, hpos, hst]
      | error e => simp [executeSellWithWallet, hpos, hst]
    · simp [executeSellWithWallet, hpos, hst]

/-- C7: in the sell per-wallet operation (with the prompt-validated
percentage range 1–100): a wallet with no token account is skipped and no
quote requested; a zero first-account balance is likewise skipped (the
computed amount is 0); with `percentToSell = 100` the requested sell amount
is exactly the queried balance, and with any other percentage it is
`balance * percentToSell / 100`. -/
theorem sell_amount_spec (i : Nat) (w : WalletInfo) (key : String)
    (tokenBalance : ℚ) (accountsRest : List ℚ) (quote : Except String Nat)
    (send : Except String String) (p : SellParams)
    (hp1 : 1 ≤ p.percentToSell) (hp100 : p.percentToSell ≤ 100) :
    (executeSellWithWallet i w ⟨some key, .ok [], quote, send⟩ p).result = none ∧
    (executeSellWithWallet i w ⟨some key, .ok [], quote, send⟩ p).requestedAmount = none ∧
    (tokenBalance = 0 →
      (executeSellWithWallet i w ⟨some key, .ok (tokenBalance :: accountsRest), quote, send⟩
          p).result = none ∧
      (executeSellWithWallet i w ⟨some key, .ok (tokenBalance :: accountsRest), quote, send⟩
          p).requestedAmount = none) ∧
    (0 < tokenBalance → p.percentToSell = 100 →
      (executeSellWithWallet i w ⟨some key, .ok (tokenBalance :: accountsRest), quote, send⟩
          p).requestedAmount = some tokenBalance) ∧
    (0 < tokenBalance → p.percentToSell ≠ 100 →
      (executeSellWithWallet i w ⟨some key, .ok (tokenBalance :: accountsRest), quote, send⟩
          p).requestedAmount = some (tokenBalance * p.percentToSell / 100)) := by
  have hpct : (0 : ℚ) < p.percentToSell := lt_of_lt_of_le zero_lt_one hp1
  refine ⟨?_, ?_, ?_, ?_, ?_⟩
  · simp [executeSellWithWallet]
  · simp [executeSellWithWallet]
  · intro hzero
    subst hzero
    by_cases hpc : p.percentToSell = 100
    · constructor <;> simp [executeSellWithWallet, hpc]
    · constructor <;> simp [executeSellWithWallet, hpc]
  · intro hb hpc
    have hpos : ¬ ((if p.percentToSell = 100 then tokenBalance
        else tokenBalance * p.percentToSell / 100) ≤ 0) := by
      rw [if_pos hpc]
      exact not_le.mpr hb
    rw [executeSellWithWallet_requested i w key tokenBalance accountsRest quote send p hpos,
      if_pos hpc]
  · intro hb hpc
    have hpos : ¬ ((if p.percentToSell = 100 then tokenBalance
        else tokenBalance * p.percentToSell / 100) ≤ 0) := by
      rw [if_neg hpc]
      push_neg
      positivity
    rw [executeSellWithWallet_requested i w key tokenBalance accountsRest quote send p hpos,
      if_neg hpc]

/-- C7 witness: selling 50 percent of a queried balance of 8 tokens requests
exactly `8 * 50 / 100` tokens. -/
theorem sell_amount_spec_witness :
    (executeSellWithWallet 0 walletInfoExample
        ⟨some "key-1", .ok [(8 : ℚ)], .ok 200, .ok "sig-1"⟩ sellParamsExample).requestedAmount
      = some ((8 : ℚ) * sellParamsExample.percentToSell / 100) :=
  (sell_amount_spec 0 walletInfoExample "key-1" 8 [] (.ok 200) (.ok "sig-1")
      sellParamsExample (by norm_num [sellParamsExample]) (by norm_num [sellParamsExample])
    ).2.2.2.2 (by norm_num) (by norm_num [sellParamsExample])

/-- C5: in the token-creation flow, if the metadata upload fails (its
promise rejects) or the transaction quote request fails (rejects or returns
a non-200 status), the flow aborts before any signing: no transaction is
signed, no bundle is submitted, and the attempt ends in a thrown error. -/
theorem createToken_aborts_before_signing (env : CreateTokenEnv) (td : TokenData)
    (hfail : (∃ e, env.uploadOutcome = .error e) ∨ (∃ e, env.quoteOutcome = .error e) ∨
      (∃ st txs, env.quoteOutcome = .ok (st, txs) ∧ st ≠ 200)) :
    (createTokenBundle env td).signedTransactionCount = 0 ∧
    (createTokenBundle env td).bundleSubmitted = false ∧
    ∃ e, (createTokenBundle env td).result = .error e := by
  rcases env with ⟨ka, kb, mint, up, qu, ji⟩
  cases ka with
  | none => simp [createTokenBundle]
  | some a =>
    cases kb with
    | none => simp [createTokenBundle]
    | some bKey =>
      rcases hfail with ⟨e, he⟩ | ⟨e, he⟩ | ⟨st, txs, he, hst⟩
      · simp only at he
        subst he
        simp [createTokenBundle]
      · simp only at he
        subst he
        cases up with
        | error e2 => simp [createTokenBundle]
        | ok u => simp [createTokenBundle]
      · simp only at he
        subst he
        cases up with
        | error e2 => simp [createTokenBundle]
        | ok u => simp [createTokenBundle, hst]

/-- C5 witness: a quote request answered with HTTP 500 signs nothing and
submits no bundle. -/
theorem createToken_aborts_before_signing_witness :
    (createTokenBundle createEnvNon200 ⟨"N", "S", "D", "x", "t", "w", "img.png", 1⟩
        ).signedTransactionCount = 0 ∧
    (createTokenBundle createEnvNon200 ⟨"N", "S", "D", "x", "t", "w", "img.png", 1⟩
        ).bundleSubmitted = false := by
  have h := createToken_aborts_before_signing createEnvNon200
    ⟨"N", "S", "D", "x", "t", "w", "img.png", 1⟩
    (Or.inr (Or.inr ⟨500, ["tx0", "tx1"], rfl, by norm_num⟩))
  exact ⟨h.1, h.2.1⟩

/-- C9: for every non-empty wallet list with a present, valid
`BASE_WALLET_ADDRESS` and a confirmed prompt, the consolidation batch aborts
on its first iteration with an error caught by the top-level handler — the
`const baseWalletPublicKey` declared inside the inner try block is out of
scope at the loop — so `consolidateWallet` is never invoked and no transfer
is ever constructed or submitted. -/
theorem consolidate_scope_bug (menv : ConsolidateMainEnv) (addr : String)
    (wallets : List ConsolidateWalletEnv)
    (hbase : menv.baseWalletAddress = some addr)
    (hvalid : menv.baseAddressValid = true)
    (hconfirm : menv.confirm = true)
    (hne : wallets ≠ []) :
    (consolidateMain menv wallets).outcome =
      .caughtError "ReferenceError: baseWalletPublicKey is not defined" ∧
    (consolidateMain menv wallets).walletOpCalls = 0 ∧
    (consolidateMain menv wallets).attempts = [] := by
  rcases menv with ⟨ba, v, c⟩
  simp only at hbase hvalid hconfirm
  subst hvalid
  subst hconfirm
  subst hbase
  cases wallets with
  | nil => exact absurd rfl hne
  | cons w rest =>
    simp [consolidateMain, consolidateLoopGo, mainScopeAtLoop, scopeLookup]

/-- C9 witness: one funded wallet, a valid base address, a confirmed prompt:
the run ends in the caught ReferenceError with zero `consolidateWallet`
invocations and no transfer. -/
theorem consolidate_scope_bug_witness :
    (consolidateMain mainEnvExample [consolidateEnvExample]).outcome =
      .caughtError "ReferenceError: baseWalletPublicKey is not defined" ∧
    (consolidateMain mainEnvExample [consolidateEnvExample]).walletOpCalls = 0 ∧
    (consolidateMain mainEnvExample [consolidateEnvExample]).attempts = [] :=
  consolidate_scope_bug mainEnvExample "BASEWALLETADDRESS" [consolidateEnvExample]
    rfl rfl rfl (List.cons_ne_nil _ _)

/-- C3 counterexample: a buy whose quote request returns HTTP 500 fails —
no transaction is submitted, the wallet yields no success — yet the run's
console output surfaces no failure at all: the non-2xx status falls through
the `if (response.status === 200)` with no else branch.  This refutes the
claim that every per-wallet failure is surfaced in the run's console
output. -/
theorem buy_non200_silent :
    (executeBuyWithWallet 0 walletInfoExample buyEnvNon200).1 = none ∧
    (executeBuyWithWallet 0 walletInfoExample buyEnvNon200).2.any surfacesFailure = false := by
  decide

/-- C3 (amended): in both the buy and the sell flow, every per-wallet
failure except a non-2xx quote response is surfaced in the run's console
output — a missing credential, a rejected token-account query, an absent or
zero token balance, a rejected quote request and a failed submission each
produce a failure message — and every failure is excluded from the success
total (either flow returns a signature only when the quote returned 200 and
the submission succeeded); a non-2xx quote response, however, is silently
swallowed in both flows: the wallet fails with no failure message. -/
theorem per_wallet_failures_surfaced (i : Nat) (w : WalletInfo)
    (benv : BuyWalletEnv) (senv : SellWalletEnv) (p : SellParams) :
    (benv.privateKey = none →
      (executeBuyWithWallet i w benv).1 = none ∧
      (executeBuyWithWallet i w benv).2.any surfacesFailure = true) ∧
    (∀ e, benv.quoteOutcome = .error e →
      (executeBuyWithWallet i w benv).1 = none ∧
      (executeBuyWithWallet i w benv).2.any surfacesFailure = true) ∧
    (∀ e, benv.quoteOutcome = .ok 200 → benv.sendOutcome = .error e →
      (executeBuyWithWallet i w benv).1 = none ∧
      (executeBuyWithWallet i w benv).2.any surfacesFailure = true) ∧
    (∀ st, benv.privateKey ≠ none → benv.quoteOutcome = .ok st → st ≠ 200 →
      (executeBuyWithWallet i w benv).1 = none ∧
      (executeBuyWithWallet i w benv).2.any surfacesFailure = false) ∧
    (∀ sig, (executeBuyWithWallet i w benv).1 = some sig →
      benv.quoteOutcome = .ok 200 ∧ benv.sendOutcome = .ok sig) ∧
    (senv.privateKey = none →
      (executeSellWithWallet i w senv p).result = none ∧
      (executeSellWithWallet i w senv p).output.any surfacesFailure = true) ∧
    (∀ e, senv.tokenAccountsQuery = .error e →
      (executeSellWithWallet i w senv p).result = none ∧
      (executeSellWithWallet i w senv p).output.any surfacesFailure = true) ∧
    (senv.privateKey ≠ none → senv.tokenAccountsQuery = .ok [] →
      (executeSellWithWallet i w senv p).result = none ∧
      (executeSellWithWallet i w senv p).output.any surfacesFailure = true) ∧
    (∀ rest, senv.privateKey ≠ none → senv.tokenAccountsQuery = .ok ((0 : ℚ) :: rest) →
      (executeSellWithWallet i w senv p).result = none ∧
      (executeSellWithWallet i w senv p).output.any surfacesFailure = true) ∧
    (∀ e b rest, senv.privateKey ≠ none → senv.tokenAccountsQuery = .ok (b :: rest) →
      senv.quoteOutcome = .error e →
      (executeSellWithWallet i w senv p).result = none ∧
      (executeSellWithWallet i w senv p).output.any surfacesFailure = true) ∧
    (∀ e, senv.quoteOutcome = .ok 200 → senv.sendOutcome = .error e →
      (executeSellWithWallet i w senv p).result = none ∧
      (executeSellWithWallet i w senv p).output.any surfacesFailure = true) ∧
    (∀ st b rest, senv.privateKey ≠ none → senv.tokenAccountsQuery = .ok (b :: rest) →
      ¬ ((if p.percentToSell = 100 then b else b * p.percentToSell / 100) ≤ 0) →
      senv.quoteOutcome = .ok st → st ≠ 200 →
      (executeSellWithWallet i w senv p).result = none ∧
      (executeSellWithWallet i w senv p).output.any surfacesFailure = false) ∧
    (∀ sig, (executeSellWithWallet i w senv p).result = some sig →
      senv.quoteOutcome = .ok 200 ∧ senv.sendOutcome = .ok sig) := by
  rcases benv with ⟨bpk, bq, bs⟩
  rcases senv with ⟨spk, sta, sq, ss⟩
  refine ⟨?_, ?_, ?_, ?_, ?_, ?_, ?_, ?_, ?_, ?_, ?_, ?_, ?_⟩
  · intro h
    simp only at h
    subst h
    simp [executeBuyWithWallet, surfacesFailure]
  · intro e he
    simp only at he
    subst he
    cases bpk with
    | none => simp [executeBuyWithWallet, surfacesFailure]
    | some k => simp [executeBuyWithWallet, surfacesFailure]
  · intro e hq hsend
    simp only at hq hsend
    subst hq
    subst hsend
    cases bpk with
    | none => simp [executeBuyWithWallet, surfacesFailure]
    | some k => simp [executeBuyWithWallet, surfacesFailure]
  · intro st hpk hq hst
    simp only at hq
    subst hq
    cases bpk with
    | none => exact absurd rfl hpk
    | some k => simp [executeBuyWithWallet, surfacesFailure, hst]
  · intro sig hsig
    cases bpk with
    | none => simp [executeBuyWithWallet] at hsig
    | some k =>
      cases bq with
      | error e => simp [executeBuyWithWallet] at hsig
      | ok st =>
        by_cases hst : st = 200
        · subst hst
          cases bs with
          | ok s =>
            simp [executeBuyWithWallet] at hsig
            simp [hsig]
          | error e => simp [executeBuyWithWallet] at hsig
        · simp [executeBuyWithWallet, hst] at hsig
  · intro h
    simp only at h
    subst h
    simp [executeSellWithWallet, surfacesFailure]
  · intro e he
    simp only at he
    subst he
    cases spk with
    | none => simp [executeSellWithWallet, surfacesFailure]
    | some k => simp [executeSellWithWallet, surfacesFailure]
  · intro hpk hacc
    simp only at hpk hacc
    subst hacc
    cases spk with
    | none => exact absurd rfl hpk
    | some k => simp [executeSellWithWallet, surfacesFailure]
  · intro rest hpk hacc
    simp only at hpk hacc
    subst hacc
    cases spk with
    | none => exact absurd rfl hpk
    | some k => simp [executeSellWithWallet, surfacesFailure]
  · intro e b rest hpk hacc hq
    simp only at hpk hacc hq
    subst hacc
    subst hq
    cases spk with
    | none => exact absurd rfl hpk
    | some k =>
      by_cases hats : (if p.percentToSell = 100 then b else b * p.percentToSell / 100) ≤ 0
      · simp [executeSellWithWallet, surfacesFailure, hats]
      · simp [executeSellWithWallet, surfacesFailure, hats]
  · intro e hq hsend
    simp only at hq hsend
    subst hq
    subst hsend
    cases spk with
    | none => simp [executeSellWithWallet, surfacesFailure]
    | some k =>
      cases sta with
      | error e2 => simp [executeSellWithWallet, surfacesFailure]
      | ok accounts =>
        cases accounts with
        | nil => simp [executeSellWithWallet, surfacesFailure]
        | cons b rest =>
          by_cases hats : (if p.percentToSell = 100 then b else b * p.percentToSell / 100) ≤ 0
          · simp [executeSellWithWallet, surfacesFailure, hats]
          · simp [executeSellWithWallet, surfacesFailure, hats]
  · intro st b rest hpk hacc hats hq hst
    simp only at hpk hacc hq
    subst hacc
    subst hq
    cases spk with
    | none => exact absurd rfl hpk
    | some k => simp [executeSellWithWallet, surfacesFailure, hats, hst]
  · intro sig hsig
    cases spk with
    | none => simp [executeSellWithWallet] at hsig
    | some k =>
      cases sta with
      | error e => simp [executeSellWithWallet] at hsig
      | ok accounts =>
        cases accounts with
        | nil => simp [executeSellWithWallet] at hsig
        | cons b rest =>
          by_cases hats : (if p.percentToSell = 100 then b else b * p.percentToSell / 100) ≤ 0
          · simp [executeSellWithWallet, hats] at hsig
          · cases sq with
            | error e => simp [executeSellWithWallet, hats] at hsig
            | ok st =>
              by_cases hst : st = 200
              · subst hst
                cases ss with
                | ok s =>
                  simp [executeSellWithWallet, hats] at hsig
                  simp [hsig]
                | error e => simp [executeSellWithWallet, hats] at hsig
              · simp [executeSellWithWallet, hats, hst] at hsig

end PumpBot
